import Mathlib

/-!
Shallow embedding of the core extraction / scoring / ranking pipeline of the
job-listing-scraper repository (src/scraper/parser.ts, src/services/job-matcher.ts,
src/scraper/automation.ts), together with proofs of the specified properties.

Conventions of the embedding:
* JavaScript numbers are modelled by exact rationals (`ℚ`); there is no NaN in
  this model, so "never NaN" becomes totality of the defined function.
* JavaScript strings are Lean `String`s; `toLowerCase` is modelled per
  character, `includes` as contiguous-sublist occurrence, `indexOf` as the
  first occurrence index.
* `Date` values are epoch milliseconds (`Int`); `new Date()` / `Date.now()`
  is passed explicitly as a `now : Int` parameter.
* Optional / possibly-`undefined` fields are `Option`s; JavaScript truthiness
  of a string (`undefined` and `""` are falsy) is modelled explicitly.
-/

namespace JobScraper

/-- Per-character lowercase, modelling `String.prototype.toLowerCase` on the
ASCII range that the scoring rules use. -/
def strLower (s : String) : String := ⟨s.data.map Char.toLower⟩

/-- Does `pat` occur as a contiguous sublist of `l`?  Models
`String.prototype.includes` on the character lists. -/
def subOccurs (pat : List Char) : List Char → Bool
  | [] => pat.isEmpty
  | c :: rest => pat.isPrefixOf (c :: rest) || subOccurs pat rest

/-- `s.includes(pat)` for strings. -/
def strContains (s pat : String) : Bool := subOccurs pat.data s.data

/-- Index of the first occurrence of `pat` in a character list, `none` when it
does not occur.  Models `String.prototype.indexOf` (with `-1` as `none`). -/
def idxOfPat (pat : List Char) : List Char → Option Nat
  | [] => if pat.isEmpty then some 0 else none
  | c :: rest =>
    if pat.isPrefixOf (c :: rest) then some 0
    else (idxOfPat pat rest).map (· + 1)

/-- `String.prototype.trim` on a character list: strip leading and trailing
whitespace. -/
def trimChars (l : List Char) : List Char :=
  ((l.dropWhile Char.isWhitespace).reverse.dropWhile Char.isWhitespace).reverse

/-- Deduplication keeping first occurrences, modelling `[...new Set(xs)]`. -/
def dedupFirstAux (seen : List String) : List String → List String
  | [] => []
  | x :: xs =>
    if x ∈ seen then dedupFirstAux seen xs
    else x :: dedupFirstAux (x :: seen) xs

/-- `[...new Set(xs)]`. -/
def dedupFirst (l : List String) : List String := dedupFirstAux [] l

/-- The candidate profile fields the pipeline reads (`resume.json`'s
`candidate` object; the parser reads the same four fields from its profile
input). -/
structure Candidate where
  location : List String
  experience_years : Nat
  roles : List String
  tech_stack : List String
deriving DecidableEq

/-- `JobDetails` from src/scraper/parser.ts: the normalized job record. -/
structure JobDetails where
  title : String
  company : String
  company_url : Option String
  job_url : String
  description : Option String
  requirements : Option String
  tech_stack : Option (List String)
  salary_range : Option String
  location : Option String
  posted_date : Option Int
deriving DecidableEq

/-- The object returned by the in-page `page.evaluate` callback of
`extractJobDetails`: each field is already the trimmed text of the first
selector that matched, or `""` when the whole fallback chain failed. -/
structure PageData where
  url : String
  title : String
  company : String
  description : String
  location : String
  salary : String
  companyUrl : String
  fullText : String
deriving DecidableEq

/-- A scored job (`ScoredJob` from src/services/job-matcher.ts). -/
structure ScoredJob extends JobDetails where
  score : ℚ
  matchReasons : List String
deriving DecidableEq

/-! ## Scoring (JobParser, src/scraper/parser.ts) -/

/-- `JobParser.calculateTechStackScore`: 0 when the job lists no tech;
otherwise the count of job techs with a case-insensitive exact match in the
user's tech list, divided by the longer list's length, times 100. -/
def calculateTechStackScore (userTechStack : List String) (jobTechStack : List String) : ℚ :=
  if jobTechStack.length = 0 then 0
  else
    let matched := jobTechStack.filter fun tech =>
      userTechStack.any fun userTech => strLower userTech = strLower tech
    (matched.length : ℚ) / ((max jobTechStack.length userTechStack.length : Nat) : ℚ) * 100

/-- The six generic title keywords of `JobParser.calculateTitleScore`. -/
def titleKeywords : List String :=
  ["developer", "engineer", "software", "full stack", "backend", "frontend"]

/-- `JobParser.calculateTitleScore`: 100 when the lower-cased title contains
some profile role; otherwise (matched generic keywords / 6) × 60. -/
def calculateTitleScore (userRoles : List String) (title : String) : ℚ :=
  let titleLower := strLower title
  if userRoles.any (fun role => strContains titleLower (strLower role)) then 100
  else
    let matched := titleKeywords.filter fun keyword => strContains titleLower keyword
    (matched.length : ℚ) / (titleKeywords.length : ℚ) * 60

/-- `JobParser.calculateLocationScore`: 100 on a preferred-location or
remote/work-from-home hit, else 0. -/
def calculateLocationScore (userLocations : List String) (location : String) : ℚ :=
  let locationLower := strLower location
  if userLocations.any (fun userLocation => strContains locationLower (strLower userLocation))
  then 100
  else if strContains locationLower "remote" || strContains locationLower "work from home"
  then 100
  else 0

/-- Milliseconds in a day, the divisor used by the recency computations. -/
def msPerDay : Int := 1000 * 60 * 60 * 24

/-- `JobParser.calculateRecencyScore`: neutral 50 when the date is unknown,
else a step function of the floored day difference. -/
def calculateRecencyScore (now : Int) (postedDate : Option Int) : ℚ :=
  match postedDate with
  | none => 50
  | some t =>
    let daysDiff := Int.fdiv (now - t) msPerDay
    if daysDiff ≤ 1 then 100
    else if daysDiff ≤ 3 then 80
    else if daysDiff ≤ 7 then 60
    else if daysDiff ≤ 14 then 40
    else if daysDiff ≤ 30 then 20
    else 0

/-- `JobParser.calculateJobScore`: the weighted sum of the four sub-scores,
clamped above by 100 and normalized to [0,1]. -/
def calculateJobScore (c : Candidate) (now : Int) (j : JobDetails) : ℚ :=
  let techStackScore := calculateTechStackScore c.tech_stack (j.tech_stack.getD [])
  let titleScore := calculateTitleScore c.roles j.title
  let locationScore := calculateLocationScore c.location (j.location.getD "")
  let recencyScore := calculateRecencyScore now j.posted_date
  let score := techStackScore * 0.4 + titleScore * 0.3
    + locationScore * 0.2 + recencyScore * 0.1
  min score 100 / 100

/-! ## Match reasons and ranking (JobMatcher, src/services/job-matcher.ts) -/

/-- The reason list built by the specific rules of
`JobMatcher.generateMatchReasons`, before the generic fallback (`reasons` as
it stands right before the final emptiness check). -/
def generateMatchReasonsCore (c : Candidate) (now : Int) (j : JobDetails) : List String :=
  let jobTechStack := j.tech_stack.getD []
  let techMatches := jobTechStack.filter fun tech =>
    c.tech_stack.any fun userTech => strLower userTech = strLower tech
  let techReasons : List String :=
    if 0 < techMatches.length then
      ["Tech stack match: " ++ String.intercalate ", " (techMatches.take 3)
        ++ (if 3 < techMatches.length then "..." else "")]
    else []
  let titleLower := strLower j.title
  let roleMatches := c.roles.filter fun role => strContains titleLower (strLower role)
  let roleReasons : List String :=
    if 0 < roleMatches.length then ["Role match: " ++ roleMatches.head?.getD ""] else []
  let locationLower := strLower (j.location.getD "")
  let locationMatches := c.location.filter fun loc => strContains locationLower (strLower loc)
  let locationReasons : List String :=
    if 0 < locationMatches.length then
      ["Location match: " ++ locationMatches.head?.getD ""]
    else if strContains locationLower "remote" || strContains locationLower "work from home" then
      ["Remote work available"]
    else []
  let recencyReasons : List String :=
    match j.posted_date with
    | some t =>
      let daysDiff := Int.fdiv (now - t) msPerDay
      if daysDiff ≤ 1 then ["Posted today"]
      else if daysDiff ≤ 3 then ["Recently posted"]
      else []
    | none => []
  let descriptionLower := strLower (j.description.getD "")
  let requirementsLower := strLower (j.requirements.getD "")
  let fullText := descriptionLower ++ " " ++ requirementsLower
  let levelReasons : List String :=
    if strContains fullText "senior" = true ∧ 5 ≤ c.experience_years then
      ["Senior level match"]
    else if strContains fullText "mid-level" = true ∧ 3 ≤ c.experience_years then
      ["Mid-level match"]
    else []
  let salaryReasons : List String :=
    if j.salary_range.getD "" ≠ "" then ["Salary information available"] else []
  let startupReasons : List String :=
    if strContains fullText "startup" || strContains fullText "early stage" then
      ["Startup opportunity"]
    else []
  techReasons ++ roleReasons ++ locationReasons ++ recencyReasons
    ++ levelReasons ++ salaryReasons ++ startupReasons

/-- `JobMatcher.generateMatchReasons`: the specific-rule reasons, or the
single generic percentage reason when none of them fired. -/
def generateMatchReasons (c : Candidate) (now : Int) (j : JobDetails) (score : ℚ) : List String :=
  let reasons := generateMatchReasonsCore c now j
  if reasons.length = 0 then
    ["Overall match score: " ++ toString (round (score * 100)) ++ "%"]
  else reasons

/-- `JobMatcher.scoreJob`. -/
def scoreJob (c : Candidate) (now : Int) (j : JobDetails) : ScoredJob :=
  let score := calculateJobScore c now j
  { toJobDetails := j
    score := score
    matchReasons := generateMatchReasons c now j score }

/-- The comparator `(a, b) => b.score - a.score` of
`JobMatcher.scoreMultipleJobs` as a total preorder: `a` may stay before `b`
exactly when `a.score ≥ b.score`. -/
def byScoreDesc (a b : ScoredJob) : Prop := b.score ≤ a.score

instance : DecidableRel byScoreDesc :=
  fun a b => inferInstanceAs (Decidable (b.score ≤ a.score))

instance : IsTotal ScoredJob byScoreDesc := ⟨fun a b => le_total b.score a.score⟩

instance : IsTrans ScoredJob byScoreDesc := ⟨fun _ _ _ h h' => le_trans h' h⟩

/-- `JobMatcher.scoreMultipleJobs`: score every job, then sort by score
descending.  `Array.prototype.sort` is a stable sort, which the stable
`List.insertionSort` models. -/
def scoreMultipleJobs (c : Candidate) (now : Int) (jobs : List JobDetails) : List ScoredJob :=
  List.insertionSort byScoreDesc (jobs.map (scoreJob c now))

/-- `JobMatcher.selectTopJobs`: first `count` of the jobs clearing the
threshold, falling back to the first `count` of the whole list when none
clears it. -/
def selectTopJobs (minScore : ℚ) (scoredJobs : List ScoredJob) (count : Nat) : List ScoredJob :=
  let qualifiedJobs := scoredJobs.filter fun job => minScore ≤ job.score
  if qualifiedJobs.length = 0 then scoredJobs.take count
  else qualifiedJobs.take count

/-! ## Field extraction (JobParser, src/scraper/parser.ts) -/

/-- The fixed catalog of additional common technologies scanned by
`JobParser.extractTechStack`. -/
def catalogTech : List String :=
  ["JavaScript", "HTML", "CSS", "SQL", "Git", "Docker", "Kubernetes",
   "Angular", "Vue.js", "Express.js", "Django", "Flask", "Spring", "Laravel",
   "Ruby on Rails", "PHP", "C++", "C#", "Java", "Go", "Rust", "Swift",
   "Kotlin", "Flutter", "React Native", "Unity", "TensorFlow", "PyTorch",
   "Pandas", "NumPy", "Scikit-learn", "Elasticsearch", "Kafka", "RabbitMQ",
   "Nginx", "Apache", "Jenkins", "GitLab CI", "GitHub Actions", "Terraform",
   "Ansible"]

/-- `JobParser.extractTechStack`: case-insensitive substring scan of the page
text against the candidate's declared stack followed by the fixed catalog,
deduplicated keeping first occurrences. -/
def extractTechStack (c : Candidate) (text : String) : List String :=
  let allTechStack := c.tech_stack ++ catalogTech
  let foundTech := allTechStack.filter fun tech => strContains (strLower text) (strLower tech)
  dedupFirst foundTech

/-- The section-header phrases of `JobParser.extractRequirements`, in their
fixed priority order. -/
def requirementSections : List (List Char) :=
  ["requirements:".data, "qualifications:".data,
   "what we\x27re looking for:".data, "you should have:".data,
   "minimum requirements:".data, "required skills:".data,
   "must have:".data]

/-- The header loop of `JobParser.extractRequirements`: try each section
header in order against the lower-cased text; on the first hit return the
trimmed window of up to 1000 characters following it. -/
def extractFromSections (text lowerText : List Char) : List (List Char) → List Char
  | [] => []
  | s :: rest =>
    match idxOfPat s lowerText with
    | some i => trimChars ((text.drop (i + s.length)).take 1000)
    | none => extractFromSections text lowerText rest

/-- `JobParser.extractRequirements` on a character list. -/
def extractRequirementsL (text : List Char) : List Char :=
  extractFromSections text (text.map Char.toLower) requirementSections

/-- `JobParser.extractRequirements`. -/
def extractRequirements (text : String) : String := ⟨extractRequirementsL text.data⟩

/-- `JobParser.extractJobDetails` after the in-page evaluation: the guard on
the two essential fields and the assembly of the record.  The posted-date
pattern matcher is passed as `dateOf` (its result is all this step uses). -/
def extractJobDetailsCore (c : Candidate) (dateOf : String → Option Int)
    (pd : PageData) : Option JobDetails :=
  if pd.title = "" ∨ pd.company = "" then none
  else some
    { title := pd.title
      company := pd.company
      company_url := some pd.companyUrl
      job_url := pd.url
      description := some pd.description
      requirements := some (extractRequirements pd.fullText)
      tech_stack := some (extractTechStack c pd.fullText)
      salary_range := if pd.salary = "" then none else some pd.salary
      location := if pd.location = "" then none else some pd.location
      posted_date := dateOf pd.fullText }

/-! ## Orchestration (JobScrapingAutomation.executeFullScrapingCycle,
src/scraper/automation.ts) -/

/-- Status values of a scraping session. -/
inductive SessionStatus
  | running
  | completed
  | failed
deriving DecidableEq

/-- The fields of the final session update the cycle writes. -/
structure SessionResult where
  status : SessionStatus
  total_jobs_found : Nat
  top_jobs_selected : Nat
deriving DecidableEq

/-- What one candidate URL produced: a fetch/extraction exception (caught,
logged and skipped by the per-URL `try`), or the parser's result, which is
itself `none` when the essential fields were missing. -/
inductive FetchOutcome
  | fetchFailure
  | extracted (d : Option JobDetails)
deriving DecidableEq

/-- The per-URL loop of `executeFullScrapingCycle`: failed URLs are skipped,
`null` parser results are not pushed, successful records are collected in
order. -/
def collectJobDetails (outcomes : List FetchOutcome) : List JobDetails :=
  outcomes.filterMap fun o =>
    match o with
    | .fetchFailure => none
    | .extracted d => d

/-- `executeFullScrapingCycle`, with the per-URL fetch outcomes as input
(the session is capped at 50 URLs by `slice(0, 50)`): collect the surviving
records, score and rank them, select the top jobs, and write the final
session update with status `completed` and the aggregate counts. -/
def executeFullScrapingCycle (c : Candidate) (now : Int) (minScore : ℚ)
    (topCount : Nat) (outcomes : List FetchOutcome) : SessionResult :=
  let jobDetails := collectJobDetails (outcomes.take 50)
  let scoredJobs := scoreMultipleJobs c now jobDetails
  let topJobs := selectTopJobs minScore scoredJobs topCount
  { status := .completed
    total_jobs_found := scoredJobs.length
    top_jobs_selected := topJobs.length }

/-! ## Report generation (JobMatcher.generateJobReport) -/

/-- One step of the occurrence counting done with plain objects
(`count[key] = (count[key] || 0) + 1`): JavaScript objects keep string keys
in insertion order, modelled by an association list. -/
def bump : List (String × Nat) → String → List (String × Nat)
  | [], key => [(key, 1)]
  | (k, n) :: rest, key =>
    if k = key then (k, n + 1) :: rest else (k, n) :: bump rest key

/-- The comparator `([, a], [, b]) => b - a` used on `Object.entries`. -/
def byCountDesc (a b : String × Nat) : Prop := b.2 ≤ a.2

instance : DecidableRel byCountDesc :=
  fun a b => inferInstanceAs (Decidable (b.2 ≤ a.2))

/-- The four score bands of the report. -/
structure ScoreDistribution where
  excellent : Nat
  good : Nat
  fair : Nat
  poor : Nat
deriving DecidableEq

/-- The report record returned by `JobMatcher.generateJobReport`. -/
structure JobReport where
  totalJobs : Nat
  averageScore : ℚ
  topTechStack : List String
  topCompanies : List String
  locationDistribution : List (String × Nat)
  scoreDistribution : ScoreDistribution
deriving DecidableEq

/-- `JobMatcher.generateJobReport`: the zero report on an empty batch
(guarding the 0/0 average), otherwise the aggregate statistics. -/
def generateJobReport (scoredJobs : List ScoredJob) : JobReport :=
  if scoredJobs.length = 0 then
    { totalJobs := 0
      averageScore := 0
      topTechStack := []
      topCompanies := []
      locationDistribution := []
      scoreDistribution := { excellent := 0, good := 0, fair := 0, poor := 0 } }
  else
    let averageScore :=
      (scoredJobs.foldl (fun sum job => sum + job.score) 0) / (scoredJobs.length : ℚ)
    let techStackCount :=
      scoredJobs.foldl (fun counts job => (job.tech_stack.getD []).foldl bump counts) []
    let topTechStack :=
      ((List.insertionSort byCountDesc techStackCount).take 10).map Prod.fst
    let companyCount := scoredJobs.foldl (fun counts job => bump counts job.company) []
    let topCompanies :=
      ((List.insertionSort byCountDesc companyCount).take 10).map Prod.fst
    let locationDistribution :=
      scoredJobs.foldl (fun counts job => bump counts (job.location.getD "Unknown")) []
    let scoreDistribution : ScoreDistribution :=
      { excellent := (scoredJobs.filter fun job => decide ((0.8 : ℚ) < job.score)).length
        good := (scoredJobs.filter fun job =>
          decide ((0.6 : ℚ) < job.score ∧ job.score ≤ (0.8 : ℚ))).length
        fair := (scoredJobs.filter fun job =>
          decide ((0.4 : ℚ) < job.score ∧ job.score ≤ (0.6 : ℚ))).length
        poor := (scoredJobs.filter fun job => decide (job.score ≤ (0.4 : ℚ))).length }
    { totalJobs := scoredJobs.length
      averageScore := averageScore
      topTechStack := topTechStack
      topCompanies := topCompanies
      locationDistribution := locationDistribution
      scoreDistribution := scoreDistribution }

/-! ## Spec-side definitions and concrete sample inputs -/

/-- The spec's tech-overlap numerator: the number of job techs with a
case-insensitive exact-token match in the profile list. -/
def caseInsensitiveMatchCount (jobTechStack userTechStack : List String) : Nat :=
  (jobTechStack.filter fun tech =>
    userTechStack.any fun userTech => strLower userTech = strLower tech).length

/-- A concrete job record used as test input. -/
def sampleJobDetails : JobDetails :=
  { title := "Backend Engineer"
    company := "Acme"
    company_url := none
    job_url := "job1"
    description := none
    requirements := none
    tech_stack := none
    salary_range := none
    location := none
    posted_date := none }

/-- A concrete scored job used as test input. -/
def sampleScoredJob : ScoredJob :=
  { toJobDetails := sampleJobDetails
    score := 1/2
    matchReasons := ["Role match: backend engineer"] }

/-- A concrete candidate profile with every list empty. -/
def sampleCandidate : Candidate :=
  { location := [], experience_years := 0, roles := [], tech_stack := [] }

/-- A concrete evaluated page whose title resolved but whose company did
not. -/
def samplePageTitleOnly : PageData :=
  { url := "u"
    title := "Engineer"
    company := ""
    description := ""
    location := ""
    salary := ""
    companyUrl := "example.com"
    fullText := "" }

/-! ## Sub-score bounds -/

lemma techStackScore_nonneg (u j : List String) : 0 ≤ calculateTechStackScore u j := by
  unfold calculateTechStackScore
  dsimp only
  split
  · exact le_refl 0
  · positivity

lemma titleScore_nonneg (roles : List String) (title : String) :
    0 ≤ calculateTitleScore roles title := by
  unfold calculateTitleScore
  dsimp only
  split
  · norm_num
  · positivity

lemma locationScore_nonneg (locs : List String) (loc : String) :
    0 ≤ calculateLocationScore locs loc := by
  unfold calculateLocationScore
  dsimp only
  split_ifs <;> norm_num

lemma recencyScore_nonneg (now : Int) (d : Option Int) :
    0 ≤ calculateRecencyScore now d := by
  unfold calculateRecencyScore
  rcases d with _ | t
  · norm_num
  · dsimp only
    split_ifs <;> norm_num

/-! ## Claim theorems -/

/-- C1: for every candidate profile and every job record — including records
with every optional field missing — `calculateJobScore` is a well-defined
rational in [0,1] (never NaN in this exact model); the tech sub-score on an
empty tech list is 0 rather than a division by zero, and the recency
sub-score on an unknown date is the neutral 50, so an all-empty record
degrades to a defined floor. -/
theorem calculateJobScore_in_unit_interval (c : Candidate) (now : Int) (j : JobDetails) :
    (0 ≤ calculateJobScore c now j ∧ calculateJobScore c now j ≤ 1) ∧
    calculateTechStackScore c.tech_stack [] = 0 ∧
    calculateRecencyScore now none = 50 := by
  refine ⟨?_, rfl, rfl⟩
  unfold calculateJobScore
  dsimp only
  have h1 := techStackScore_nonneg c.tech_stack (j.tech_stack.getD [])
  have h2 := titleScore_nonneg c.roles j.title
  have h3 := locationScore_nonneg c.location (j.location.getD "")
  have h4 := recencyScore_nonneg now j.posted_date
  constructor
  · apply div_nonneg _ (by norm_num)
    exact le_min (by linarith) (by norm_num)
  · rw [div_le_one (by norm_num)]
    exact min_le_right _ _

/-- C2: for every profile and every job record, the match-reason list has
length at least 1: when no specific rule fires, the single generic reason
holding the percentage score is synthesized. -/
theorem generateMatchReasons_nonempty (c : Candidate) (now : Int) (j : JobDetails) (score : ℚ) :
    1 ≤ (generateMatchReasons c now j score).length := by
  unfold generateMatchReasons
  dsimp only
  split
  · simp
  · rename_i h
    omega

/-- C3 (counterexample to the claim as stated): on a page whose title
resolved to non-empty text but whose company did not, the extractor still
returns `none`, so resolving at least one of the two fields does not
suffice to produce a record. -/
theorem extractJobDetails_one_field_counterexample :
    (samplePageTitleOnly.title ≠ "" ∨ samplePageTitleOnly.company ≠ "") ∧
    extractJobDetailsCore sampleCandidate (fun _ => none) samplePageTitleOnly = none := by
  constructor
  · left
    decide
  · rfl

/-- C3 (amended): the extractor returns `none` exactly when at least one of
title and company is unresolved (empty); only when both resolve does it
produce a record, all other fields degrading to empty/undefined. -/
theorem extractJobDetailsCore_none_iff (c : Candidate) (dateOf : String → Option Int)
    (pd : PageData) :
    extractJobDetailsCore c dateOf pd = none ↔ pd.title = "" ∨ pd.company = "" := by
  unfold extractJobDetailsCore
  split
  · rename_i h
    simp [h]
  · rename_i h
    simp [h]

/-- C4 (counterexample to the claim as stated): with `topN = 0` the selection
is empty even though the input list is not, so the "never empty when the
input is non-empty" clause fails without a `topN ≥ 1` hypothesis. -/
theorem selectTopJobs_zero_topN_counterexample :
    [sampleScoredJob] ≠ ([] : List ScoredJob) ∧
    selectTopJobs (3/10) [sampleScoredJob] 0 = [] := by
  constructor
  · simp
  · unfold selectTopJobs
    dsimp only
    split <;> simp

/-- C4 (amended): `selectTopJobs` returns the first `topN` of the jobs
clearing the threshold, or the first `topN` of the whole list when none
clears it, and the selection is non-empty whenever the input list is
non-empty and `topN ≥ 1`. -/
theorem selectTopJobs_spec (t : ℚ) (jobs : List ScoredJob) (n : Nat) :
    ((jobs.filter fun job => t ≤ job.score) = [] →
      selectTopJobs t jobs n = jobs.take n) ∧
    ((jobs.filter fun job => t ≤ job.score) ≠ [] →
      selectTopJobs t jobs n = (jobs.filter fun job => t ≤ job.score).take n) ∧
    (jobs ≠ [] → 1 ≤ n → selectTopJobs t jobs n ≠ []) := by
  refine ⟨fun h => ?_, fun h => ?_, fun hjobs hn => ?_⟩
  · simp [selectTopJobs, h]
  · have hlen : (jobs.filter fun job => t ≤ job.score).length ≠ 0 := by
      simpa [List.length_eq_zero] using h
    simp [selectTopJobs, hlen]
  · unfold selectTopJobs
    dsimp only
    split
    · rename_i hq
      simp only [ne_eq, List.take_eq_nil_iff]
      push_neg
      exact ⟨by omega, hjobs⟩
    · rename_i hq
      simp only [ne_eq, List.take_eq_nil_iff]
      push_neg
      refine ⟨by omega, ?_⟩
      simpa [List.length_eq_zero] using hq

/-- C4 witness: at threshold 3/10, a singleton list and `topN = 1`, the
selection is non-empty. -/
theorem selectTopJobs_spec_witness :
    [sampleScoredJob] ≠ ([] : List ScoredJob) ∧ (1 : Nat) ≤ 1 ∧
    selectTopJobs (3/10) [sampleScoredJob] 1 ≠ [] :=
  ⟨by simp, by decide,
    (selectTopJobs_spec (3/10) [sampleScoredJob] 1).2.2 (by simp) (by decide)⟩

/-- C9: a per-URL fetch/extraction failure never aborts the cycle — it is
skipped — and when every candidate URL fails the cycle still ends with the
session updated to `completed` with `total_jobs_found = 0` and
`top_jobs_selected = 0`. -/
theorem executeFullScrapingCycle_all_failures (c : Candidate) (now : Int) (minScore : ℚ)
    (topCount : Nat) (outcomes : List FetchOutcome) :
    (executeFullScrapingCycle c now minScore topCount outcomes).status = .completed ∧
    ((∀ o ∈ outcomes, o = .fetchFailure) →
      (executeFullScrapingCycle c now minScore topCount outcomes).total_jobs_found = 0 ∧
      (executeFullScrapingCycle c now minScore topCount outcomes).top_jobs_selected = 0) := by
  refine ⟨rfl, fun h => ?_⟩
  have hcol : collectJobDetails (outcomes.take 50) = [] := by
    rw [collectJobDetails, List.filterMap_eq_nil_iff]
    intro o ho
    have hfail := h o (List.take_subset 50 outcomes ho)
    subst hfail
    rfl
  constructor <;>
    simp [executeFullScrapingCycle, hcol, scoreMultipleJobs, selectTopJobs,
      List.insertionSort]

/-- C9 witness: a batch of two failing URLs yields the zero counts. -/
theorem executeFullScrapingCycle_all_failures_witness :
    (executeFullScrapingCycle sampleCandidate 0 (3/10) 5
        [.fetchFailure, .fetchFailure]).total_jobs_found = 0 ∧
    (executeFullScrapingCycle sampleCandidate 0 (3/10) 5
        [.fetchFailure, .fetchFailure]).top_jobs_selected = 0 :=
  (executeFullScrapingCycle_all_failures sampleCandidate 0 (3/10) 5
      [.fetchFailure, .fetchFailure]).2 (by decide)

/-- C10: on the empty batch of scored jobs, the report is the all-zero
report — the 0/0 average is guarded, so the average is 0, not undefined. -/
theorem generateJobReport_empty :
    generateJobReport [] =
      { totalJobs := 0
        averageScore := 0
        topTechStack := []
        topCompanies := []
        locationDistribution := []
        scoreDistribution := { excellent := 0, good := 0, fair := 0, poor := 0 } } := rfl

/-! ## Stability of the ranking sort -/

lemma filter_orderedInsert (k : ℚ) (a : ScoredJob) (l : List ScoredJob) :
    (List.orderedInsert byScoreDesc a l).filter (fun x => decide (x.score = k)) =
      (a :: l).filter (fun x => decide (x.score = k)) := by
  induction l with
  | nil => rfl
  | cons b l ih =>
    by_cases hab : byScoreDesc a b
    · simp [List.orderedInsert, hab]
    · have hrw : List.orderedInsert byScoreDesc a (b :: l) =
          b :: List.orderedInsert byScoreDesc a l := by
        simp [List.orderedInsert, hab]
      rw [hrw]
      by_cases hbk : b.score = k
      · have hak : ¬a.score = k := by
          intro hak
          exact hab (le_of_eq (hbk.trans hak.symm))
        simp [List.filter_cons, hbk, hak, ih]
      · simp [List.filter_cons, hbk, ih]

lemma filter_insertionSort (k : ℚ) (l : List ScoredJob) :
    (List.insertionSort byScoreDesc l).filter (fun x => decide (x.score = k)) =
      l.filter (fun x => decide (x.score = k)) := by
  induction l with
  | nil => rfl
  | cons a l ih =>
    rw [List.insertionSort, filter_orderedInsert]
    simp [List.filter_cons, ih]

/-- C5: `scoreMultipleJobs` returns a permutation of the scored inputs,
sorted with scores descending; the sort is stable — restricting the output
to any fixed score value gives exactly the corresponding restriction of the
scored input, in input order — and the function is deterministic. -/
theorem scoreMultipleJobs_stable_sorted (c : Candidate) (now : Int) (jobs : List JobDetails) :
    (scoreMultipleJobs c now jobs).Perm (jobs.map (scoreJob c now)) ∧
    List.Sorted byScoreDesc (scoreMultipleJobs c now jobs) ∧
    (∀ k : ℚ, (scoreMultipleJobs c now jobs).filter (fun x => decide (x.score = k)) =
      (jobs.map (scoreJob c now)).filter (fun x => decide (x.score = k))) ∧
    scoreMultipleJobs c now jobs = scoreMultipleJobs c now jobs :=
  ⟨List.perm_insertionSort byScoreDesc _,
   List.sorted_insertionSort byScoreDesc _,
   fun k => filter_insertionSort k _,
   rfl⟩

/-! ## Tech-overlap and title sub-score characterizations -/

lemma techScore_formula (u jt : List String) (h : jt ≠ []) :
    calculateTechStackScore u jt =
      (caseInsensitiveMatchCount jt u : ℚ) / ((max jt.length u.length : Nat) : ℚ) * 100 := by
  unfold calculateTechStackScore caseInsensitiveMatchCount
  dsimp only
  rw [if_neg (by simpa [List.length_eq_zero] using h)]

/-- C6: the tech-overlap sub-score equals (number of job techs with a
case-insensitive exact-token match in the profile list) divided by the
longer list's length, times 100; it is 0 when the job lists no tech; and the
match is symmetric in case — "React" matches "react" in either direction. -/
theorem calculateTechStackScore_matches_spec (u jt : List String) :
    calculateTechStackScore u [] = 0 ∧
    (jt ≠ [] → calculateTechStackScore u jt =
      (caseInsensitiveMatchCount jt u : ℚ) / ((max jt.length u.length : Nat) : ℚ) * 100) ∧
    calculateTechStackScore ["react"] ["React"] = 100 ∧
    calculateTechStackScore ["React"] ["react"] = 100 := by
  refine ⟨rfl, fun h => techScore_formula u jt h, ?_, ?_⟩
  · have h1 : caseInsensitiveMatchCount ["React"] ["react"] = 1 := by decide
    rw [techScore_formula ["react"] ["React"] (by decide), h1]
    norm_num
  · have h1 : caseInsensitiveMatchCount ["react"] ["React"] = 1 := by decide
    rw [techScore_formula ["React"] ["react"] (by decide), h1]
    norm_num

/-- C6 witness: a concrete non-empty job list where one of two job techs
matches the single profile tech case-insensitively. -/
theorem calculateTechStackScore_matches_spec_witness :
    (["Python", "Go"] : List String) ≠ [] ∧
    calculateTechStackScore ["python"] ["Python", "Go"] =
      (caseInsensitiveMatchCount ["Python", "Go"] ["python"] : ℚ) /
        ((max (["Python", "Go"] : List String).length
          (["python"] : List String).length : Nat) : ℚ) * 100 :=
  ⟨by decide,
    (calculateTechStackScore_matches_spec ["python"] ["Python", "Go"]).2.1 (by decide)⟩

/-- C7: the title sub-score is 100 when the lower-cased title contains some
profile role as a substring; otherwise it is (matched generic keywords)/6 ×
60 over the six fixed keywords, which is 0 when no keyword occurs. -/
theorem calculateTitleScore_matches_spec (roles : List String) (title : String) :
    (roles.any (fun role => strContains (strLower title) (strLower role)) = true →
      calculateTitleScore roles title = 100) ∧
    (roles.any (fun role => strContains (strLower title) (strLower role)) = false →
      calculateTitleScore roles title =
        ((titleKeywords.filter fun keyword =>
          strContains (strLower title) keyword).length : ℚ) / 6 * 60) ∧
    (roles.any (fun role => strContains (strLower title) (strLower role)) = false →
      (titleKeywords.filter fun keyword =>
        strContains (strLower title) keyword).length = 0 →
      calculateTitleScore roles title = 0) := by
  unfold calculateTitleScore
  dsimp only
  refine ⟨fun h => ?_, fun h => ?_, fun h h0 => ?_⟩
  · rw [if_pos h]
  · rw [if_neg (by simp [h])]
    norm_num [titleKeywords]
  · rw [if_neg (by simp [h]), h0]
    norm_num

/-- C7 witness: the role "backend engineer" occurs in the title
"Senior Backend Engineer" case-insensitively, so the sub-score is 100. -/
theorem calculateTitleScore_matches_spec_witness :
    (["backend engineer"].any (fun role =>
      strContains (strLower "Senior Backend Engineer") (strLower role)) = true) ∧
    calculateTitleScore ["backend engineer"] "Senior Backend Engineer" = 100 :=
  ⟨by decide,
    (calculateTitleScore_matches_spec ["backend engineer"] "Senior Backend Engineer").1
      (by decide)⟩

/-! ## Requirements-extraction characterization -/

lemma length_dropWhile_le_self (p : Char → Bool) (l : List Char) :
    (l.dropWhile p).length ≤ l.length := by
  induction l with
  | nil => simp
  | cons c t ih =>
    rw [List.dropWhile]
    split
    · exact le_trans ih (Nat.le_succ _)
    · exact le_refl _

lemma trimChars_length_le (l : List Char) : (trimChars l).length ≤ l.length := by
  unfold trimChars
  rw [List.length_reverse]
  refine le_trans (length_dropWhile_le_self _ _) ?_
  rw [List.length_reverse]
  exact length_dropWhile_le_self _ _

lemma extractFromSections_length_le (text lowerText : List Char)
    (secs : List (List Char)) :
    (extractFromSections text lowerText secs).length ≤ 1000 := by
  induction secs with
  | nil => simp [extractFromSections]
  | cons s rest ih =>
    rw [extractFromSections]
    cases h : idxOfPat s lowerText with
    | none =>
      simpa [h] using ih
    | some i =>
      simp only [h]
      refine le_trans (trimChars_length_le _) ?_
      rw [List.length_take]
      exact min_le_left _ _

lemma extractFromSections_all_none (text lowerText : List Char)
    (secs : List (List Char)) (h : ∀ s ∈ secs, idxOfPat s lowerText = none) :
    extractFromSections text lowerText secs = [] := by
  induction secs with
  | nil => rfl
  | cons s rest ih =>
    rw [extractFromSections]
    simp only [h s (List.mem_cons_self s rest)]
    exact ih fun s' h' => h s' (List.mem_cons_of_mem s h')

lemma extractFromSections_first (text lowerText : List Char)
    (pre : List (List Char)) (s : List Char) (post : List (List Char)) (i : Nat)
    (hpre : ∀ sPre ∈ pre, idxOfPat sPre lowerText = none)
    (hs : idxOfPat s lowerText = some i) :
    extractFromSections text lowerText (pre ++ s :: post) =
      trimChars ((text.drop (i + s.length)).take 1000) := by
  induction pre with
  | nil =>
    rw [List.nil_append, extractFromSections]
    simp only [hs]
  | cons p pre ih =>
    rw [List.cons_append, extractFromSections]
    simp only [hpre p (List.mem_cons_self p pre)]
    exact ih fun s' h' => hpre s' (List.mem_cons_of_mem p h')

/-- C8: `extractRequirements` tries the fixed section headers in their fixed
priority order against the lower-cased page text; the first header (in that
order) that occurs anywhere wins, the result being the trimmed window of at
most 1000 characters of the text following that header's first occurrence;
when no header occurs the result is empty. -/
theorem extractRequirementsL_first_header_wins (text : List Char) :
    (extractRequirementsL text).length ≤ 1000 ∧
    ((∀ s ∈ requirementSections, idxOfPat s (text.map Char.toLower) = none) →
      extractRequirementsL text = []) ∧
    (∀ pre s post i, requirementSections = pre ++ s :: post →
      (∀ sPre ∈ pre, idxOfPat sPre (text.map Char.toLower) = none) →
      idxOfPat s (text.map Char.toLower) = some i →
      extractRequirementsL text = trimChars ((text.drop (i + s.length)).take 1000)) := by
  refine ⟨extractFromSections_length_le _ _ _,
    fun h => extractFromSections_all_none _ _ _ h, ?_⟩
  intro pre s post i heq hpre hs
  unfold extractRequirementsL
  rw [heq]
  exact extractFromSections_first _ _ _ _ _ _ hpre hs

/-- C8 witness: in "Qualifications: BS", the header "requirements:" does not
occur, so the second header "qualifications:" wins at index 0 and the result
is the trimmed 1000-character window after it. -/
theorem extractRequirementsL_first_header_wins_witness :
    requirementSections =
      ["requirements:".data] ++ "qualifications:".data ::
        ["what we\x27re looking for:".data, "you should have:".data,
         "minimum requirements:".data, "required skills:".data,
         "must have:".data] ∧
    extractRequirementsL "Qualifications: BS".data =
      trimChars ((("Qualifications: BS".data).drop
        (0 + ("qualifications:".data).length)).take 1000) :=
  ⟨by decide,
    (extractRequirementsL_first_header_wins "Qualifications: BS".data).2.2
      ["requirements:".data] "qualifications:".data
      ["what we\x27re looking for:".data, "you should have:".data,
       "minimum requirements:".data, "required skills:".data,
       "must have:".data] 0
      (by decide) (by decide) (by decide)⟩

end JobScraper
